import Mathlib

/-!
Shallow embedding of `src/net/src/p2p_network.rs` (the `P2pNetwork` facade)
together with spec-modelled versions of its collaborators that live outside
the shown slice of the repository (`P2pConfig`, `P2pBackendKind`,
`NetConnectionThread`, the backend workers and their constructors).

Conventions of the embedding:
* Rust `Result<T, failure::Error>` becomes `Except NetError T`.
* A method taking `&mut self` becomes a function `State → Args → Result × State`;
  a method taking `self` by value returns no successor handle at the facade level.
* The boxed worker-factory closure built inside `P2pNetwork::new` is embedded by
  defunctionalisation: a record `NetWorkerFactory` holding exactly what the
  closure captures (the constructor it will call and the string serialisation
  of the backend config), plus an application function `NetWorkerFactory.invoke`.
* The two backend constructors (`IpcNetWorker::new`, `MockWorker::new`) are not
  in the shown source; they enter as an oracle environment `BackendEnv` so that
  theorems quantify over every possible backend behaviour.
-/

/-- Modelled from the spec: an opaque, cloneable tagged protocol message
(`Protocol` in `holochain_net_connection::protocol`, not under `src/`); the
bridge never inspects its contents.  `p2pReady` is the variant used by the
facade's own tests, `json` stands for the remaining payload-carrying variants. -/
inductive Protocol
  | p2pReady
  | json (s : String)
deriving DecidableEq, Repr

/-- Modelled from the spec: the error taxonomy of §7 for `NetResult`
(`Result<_, failure::Error>` in the source, not under `src/`). -/
inductive NetError
  | unknownBackendKind
  | backendConstructionFailed (msg : String)
  | sendAfterStopped
  | backendOperationFailed (msg : String)
  | shutdownFailed (msg : String)
deriving DecidableEq, Repr

/-- Modelled from the spec: the backend-kind tag enum of `p2p_config.rs`
(not under `src/`); exactly the two variants matched in `P2pNetwork::new`. -/
inductive P2pBackendKind
  | IPC
  | MOCK
deriving DecidableEq, Repr

/-- Modelled from the spec: the opaque, string-serialisable backend
configuration blob (`serde_json::Value` in the source, not under `src/`).
A small JSON fragment suffices: it has a value structure distinct from its
serialisation, which is what the capture claims are about. -/
inductive JsonConfig
  | str (s : String)
  | obj (pairs : List (String × String))
deriving DecidableEq, Repr

/-- Modelled from the spec: serialisation of the backend config blob
(`.to_string()` on a `serde_json::Value`). -/
def JsonConfig.to_string : JsonConfig → String
  | JsonConfig.str s => "\"" ++ s ++ "\""
  | JsonConfig.obj pairs =>
      "\x7b" ++
        String.intercalate ","
          (pairs.map (fun p => "\"" ++ p.fst ++ "\":\"" ++ p.snd ++ "\"")) ++
      "\x7d"

/-- Modelled from the spec: the configuration value consumed by the facade,
`{ backend_kind: Tag, backend_config: opaque-serializable-blob }`. -/
structure P2pConfig where
  backend_kind : P2pBackendKind
  backend_config : JsonConfig
deriving DecidableEq, Repr

/-- Modelled from the spec: the caller-supplied handler callback
`(Result<Protocol>) -> Result<()>`, moved into the connection thread. -/
def NetHandler : Type := Except NetError Protocol → Except NetError Unit

/-- Modelled from the spec: the Backend Worker capability (§6) as observed
through the bridge.  `received` records the messages passed to its `receive`
in order; `stopFails` is `some msg` when its `stop` would fail with `msg`;
`endpoint` is the backend-reported endpoint string.  (`tick` and inbound
delivery are not touched by any claim and are omitted.) -/
structure NetWorker where
  endpoint : String
  received : List Protocol
  stopFails : Option String
deriving DecidableEq, Repr

/-- Modelled from the spec: the worker's `receive(Message) -> Result`,
observed as recording the message. -/
def NetWorker.receive (w : NetWorker) (m : Protocol) : NetWorker :=
  { w with received := w.received ++ [m] }

/-- Forward a list of messages to the worker's `receive`, in list order. -/
def NetWorker.receiveAll (w : NetWorker) (ms : List Protocol) : NetWorker :=
  ms.foldl NetWorker.receive w

/-- Which backend constructor a worker factory will invoke: `ipc` stands for
`IpcNetWorker::new`, `mock` for `MockWorker::new`. -/
inductive WorkerCtor
  | ipc
  | mock
deriving DecidableEq, Repr

/-- Modelled from the spec: the backend constructors `IpcNetWorker::new` and
`MockWorker::new` are external collaborators (not under `src/`); an
environment maps a constructor choice, the handler and the serialised config
string to the fallible construction result. -/
def BackendEnv : Type :=
  WorkerCtor → NetHandler → String → Except NetError NetWorker

/-- The worker-factory closure built in `P2pNetwork::new`, embedded as the
data it captures: which backend constructor it will call and the string
serialisation of `config.backend_config` taken once at `new`-time.  This is
the defunctionalised form of
`Box::new(move |h| Ok(Box::new(Ctor::new(h, &network_config)?)))`. -/
structure NetWorkerFactory where
  ctor : WorkerCtor
  capturedConfig : String
deriving DecidableEq, Repr

/-- Applying the factory closure to a handler: it calls the captured backend
constructor on the captured config string, propagating its error (`?`). -/
def NetWorkerFactory.invoke (f : NetWorkerFactory) (env : BackendEnv)
    (h : NetHandler) : Except NetError NetWorker :=
  env f.ctor h f.capturedConfig

/-- Modelled from the spec: the Connection Thread bridge state (§4.2,
`net_connection_thread.rs`, not under `src/`).  `queue` is the outbound FIFO
fed by `send`; `forwarded` is the trace of messages already forwarded to the
worker's `receive`, in forwarding order; `endpoint` is cached right after
backend construction; `handler` is the caller's callback moved in at
construction. -/
structure NetConnectionThread where
  handler : NetHandler
  worker : NetWorker
  endpoint : String
  stopped : Bool
  queue : List Protocol
  forwarded : List Protocol

/-- Modelled from the spec: `NetConnectionThread::new(handler, factory, done)`
invokes the factory to construct the worker; a construction failure surfaces
synchronously as the error of `new`; on success the endpoint is cached and
the bridge starts unstopped with empty queues.  The third argument mirrors
the `None` passed by the facade. -/
def NetConnectionThread.new (env : BackendEnv) (handler : NetHandler)
    (worker_factory : NetWorkerFactory) (_done : Option Unit) :
    Except NetError NetConnectionThread :=
  match worker_factory.invoke env handler with
  | Except.error e => Except.error e
  | Except.ok w =>
      Except.ok
        { handler := handler
          worker := w
          endpoint := w.endpoint
          stopped := false
          queue := []
          forwarded := []  }

/-- Modelled from the spec: `send` enqueues the message for forwarding by the
execution context, in caller order; it fails with `SendAfterStopped` once the
connection has been stopped, leaving the state unchanged. -/
def NetConnectionThread.send (s : NetConnectionThread) (data : Protocol) :
    Except NetError Unit × NetConnectionThread :=
  if s.stopped then (Except.error NetError.sendAfterStopped, s)
  else (Except.ok (), { s with queue := s.queue ++ [data] })

/-- Modelled from the spec: `stop` lets the execution context process the
already-enqueued outbound messages (forwarding each to the worker's `receive`
in enqueue order), calls the worker's `stop`, and joins the context; a worker
`stop` failure is captured and returned, but teardown still completes. -/
def NetConnectionThread.stop (s : NetConnectionThread) :
    Except NetError Unit × NetConnectionThread :=
  let final : NetConnectionThread :=
    { s with
        stopped := true
        queue := []
        forwarded := s.forwarded ++ s.queue
        worker := s.worker.receiveAll s.queue }
  match s.worker.stopFails with
  | none => (Except.ok (), final)
  | some msg => (Except.error (NetError.shutdownFailed msg), final)

/-- Iterated `send` on the bridge: results in call order plus the final state. -/
def NetConnectionThread.sendAll :
    NetConnectionThread → List Protocol →
    List (Except NetError Unit) × NetConnectionThread
  | s, [] => ([], s)
  | s, m :: ms =>
      let r := s.send m
      let rest := r.snd.sendAll ms
      (r.fst :: rest.fst, rest.snd)

/-- The constructor each backend-kind tag is mapped to by the `match` in
`P2pNetwork::new`: `IPC ↦ IpcNetWorker::new`, `MOCK ↦ MockWorker::new`. -/
def ctorOfKind : P2pBackendKind → WorkerCtor
  | P2pBackendKind.IPC => WorkerCtor.ipc
  | P2pBackendKind.MOCK => WorkerCtor.mock

/-- The worker-factory selection step of `P2pNetwork::new` (source lines
27–42): serialise `config.backend_config` once into `network_config`, then
match on `config.backend_kind` to build the factory closure.  It is a plain
function of the configuration value: it receives no `BackendEnv`, so it can
invoke no backend constructor and perform no I/O. -/
def selectWorkerFactory (config : P2pConfig) : NetWorkerFactory :=
  let network_config := config.backend_config.to_string
  match config.backend_kind with
  | P2pBackendKind.IPC =>
      { ctor := WorkerCtor.ipc, capturedConfig := network_config }
  | P2pBackendKind.MOCK =>
      { ctor := WorkerCtor.mock, capturedConfig := network_config }

/-- The facade from the source: holds exactly one `NetConnectionThread`. -/
structure P2pNetwork where
  connection : NetConnectionThread

/-- `P2pNetwork::new` from the source: select the worker factory from
`config.backend_kind`, construct the connection thread with it (propagating
its error with `?`), and wrap the connection on success. -/
def P2pNetwork.new (env : BackendEnv) (handler : NetHandler)
    (config : P2pConfig) : Except NetError P2pNetwork :=
  let worker_factory : NetWorkerFactory := selectWorkerFactory config
  match NetConnectionThread.new env handler worker_factory none with
  | Except.error e => Except.error e
  | Except.ok connection => Except.ok { connection := connection }

/-- `P2pNetwork::stop` from the source: `self.connection.stop()`.  It takes
the handle by value (`fn stop(self)`), so only the result is returned: no
facade handle survives the call. -/
def P2pNetwork.stop (p : P2pNetwork) : Except NetError Unit :=
  (p.connection.stop).fst

/-- `P2pNetwork::endpoint` from the source: `self.connection.endpoint.clone()`,
a pure read of the cached endpoint (`&self`: no state change). -/
def P2pNetwork.endpoint (p : P2pNetwork) : String :=
  p.connection.endpoint

/-- `Debug for P2pNetwork` from the source: `write!(f, "P2pNetwork {{}}")`,
which renders the constant text `P2pNetwork {}` whatever the state. -/
def P2pNetwork.debugFmt (_p : P2pNetwork) : String :=
  "P2pNetwork \x7b\x7d"

/-- `NetSend for P2pNetwork` from the source: `self.connection.send(data)`
with `&mut self`, embedded as result plus successor state. -/
def P2pNetwork.send (p : P2pNetwork) (data : Protocol) :
    Except NetError Unit × P2pNetwork :=
  let r := p.connection.send data
  (r.fst, { connection := r.snd })

/-- Iterated facade `send`: results in call order plus the final facade. -/
def P2pNetwork.sendAll :
    P2pNetwork → List Protocol → List (Except NetError Unit) × P2pNetwork
  | p, [] => ([], p)
  | p, m :: ms =>
      let r := p.send m
      let rest := r.snd.sendAll ms
      (r.fst :: rest.fst, rest.snd)

/-- The registered backend kinds: the tags the dispatch in `P2pNetwork::new`
has an arm for. -/
def registeredKinds : List P2pBackendKind :=
  [P2pBackendKind.IPC, P2pBackendKind.MOCK]

/-- Success test for `Except`, mirroring `Result::is_ok`. -/
def exceptIsOk {ε α : Type} : Except ε α → Bool
  | Except.ok _ => true
  | Except.error _ => false

/-- Sample handler used by the concrete witnesses. -/
def sampleHandler : NetHandler := fun _ => Except.ok ()

/-- Sample backend worker used by the concrete witnesses. -/
def sampleWorker : NetWorker :=
  { endpoint := "mem://sample", received := [], stopFails := none }

/-- Sample backend environment: every construction succeeds with
`sampleWorker`. -/
def sampleEnv : BackendEnv := fun _ _ _ => Except.ok sampleWorker

/-- Sample configuration selecting the mock backend. -/
def sampleConfig : P2pConfig :=
  { backend_kind := P2pBackendKind.MOCK
    backend_config := JsonConfig.str "mock_config" }

/-- The facade produced by `P2pNetwork.new sampleEnv sampleHandler
sampleConfig`. -/
def sampleFacade : P2pNetwork :=
  { connection :=
      { handler := sampleHandler
        worker := sampleWorker
        endpoint := "mem://sample"
        stopped := false
        queue := []
        forwarded := [] } }

theorem sampleFacade_new :
    P2pNetwork.new sampleEnv sampleHandler sampleConfig =
      Except.ok sampleFacade := rfl

/-! ### Helper lemmas (shared) -/

theorem receiveAll_received (w : NetWorker) (ms : List Protocol) :
    (w.receiveAll ms).received = w.received ++ ms := by
  induction ms generalizing w with
  | nil => simp [NetWorker.receiveAll]
  | cons m ms ih =>
      simp [NetWorker.receiveAll, NetWorker.receive] at ih ⊢
      rw [ih]
      simp

theorem receiveAll_stopFails (w : NetWorker) (ms : List Protocol) :
    (w.receiveAll ms).stopFails = w.stopFails := by
  induction ms generalizing w with
  | nil => rfl
  | cons m ms ih =>
      simp [NetWorker.receiveAll, NetWorker.receive] at ih ⊢
      rw [ih]

theorem receiveAll_endpoint (w : NetWorker) (ms : List Protocol) :
    (w.receiveAll ms).endpoint = w.endpoint := by
  induction ms generalizing w with
  | nil => rfl
  | cons m ms ih =>
      simp [NetWorker.receiveAll, NetWorker.receive] at ih ⊢
      rw [ih]

theorem sendAll_unstopped (s : NetConnectionThread) (ms : List Protocol)
    (h : s.stopped = false) :
    (s.sendAll ms).fst = List.replicate ms.length (Except.ok ()) ∧
    (s.sendAll ms).snd = { s with queue := s.queue ++ ms } := by
  induction ms generalizing s with
  | nil =>
      simp [NetConnectionThread.sendAll]
  | cons m ms ih =>
      have hsend : s.send m =
          (Except.ok (), { s with queue := s.queue ++ [m] }) := by
        simp [NetConnectionThread.send, h]
      have ih' := ih { s with queue := s.queue ++ [m] } h
      refine ⟨?_, ?_⟩
      · simp [NetConnectionThread.sendAll, hsend, List.replicate_succ, ih'.1]
      · simp [NetConnectionThread.sendAll, hsend]
        rw [ih'.2]
        simp

theorem facade_sendAll_spec (p : P2pNetwork) (ms : List Protocol) :
    (p.sendAll ms).fst = (p.connection.sendAll ms).fst ∧
    (p.sendAll ms).snd.connection = (p.connection.sendAll ms).snd := by
  induction ms generalizing p with
  | nil => exact ⟨rfl, rfl⟩
  | cons m ms ih =>
      have ih' := ih { connection := (p.connection.send m).snd }
      simp [P2pNetwork.sendAll, NetConnectionThread.sendAll, P2pNetwork.send] at ih' ⊢
      exact ih'

theorem new_ok_inv (env : BackendEnv) (handler : NetHandler)
    (config : P2pConfig) (p : P2pNetwork)
    (hp : P2pNetwork.new env handler config = Except.ok p) :
    ∃ w : NetWorker,
      env (selectWorkerFactory config).ctor handler
          (selectWorkerFactory config).capturedConfig = Except.ok w ∧
      p = { connection :=
              { handler := handler
                worker := w
                endpoint := w.endpoint
                stopped := false
                queue := []
                forwarded := [] } } := by
  cases henv : env (selectWorkerFactory config).ctor handler
      (selectWorkerFactory config).capturedConfig with
  | error e =>
      exfalso
      simp [P2pNetwork.new, NetConnectionThread.new, NetWorkerFactory.invoke,
        henv] at hp
  | ok w =>
      refine ⟨w, rfl, ?_⟩
      simp [P2pNetwork.new, NetConnectionThread.new, NetWorkerFactory.invoke,
        henv] at hp
      exact hp.symm

theorem selectWorkerFactory_eq (config : P2pConfig) :
    selectWorkerFactory config =
      { ctor := ctorOfKind config.backend_kind
        capturedConfig := config.backend_config.to_string } := by
  obtain ⟨k, bc⟩ := config
  cases k <;> rfl

theorem receiveAll_nil (w : NetWorker) : w.receiveAll [] = w := rfl

theorem stop_snd (s : NetConnectionThread) :
    (s.stop).snd =
      { s with
          stopped := true
          queue := []
          forwarded := s.forwarded ++ s.queue
          worker := s.worker.receiveAll s.queue } := by
  unfold NetConnectionThread.stop
  cases s.worker.stopFails <;> rfl

/-! ### Claim theorems -/

/-- C1: the worker-factory selection step of `P2pNetwork::new` factors through
`ctorOfKind`, a pure function of `config.backend_kind` alone (`IPC` yields the
closure invoking `IpcNetWorker::new`, `MOCK` the one invoking
`MockWorker::new`); the selected factory captures exactly the string
serialisation of `config.backend_config`, taken once at `new`-time; and all
fallible work is deferred — invoking the factory later is exactly one call of
the captured backend constructor.  Selection has type
`P2pConfig → NetWorkerFactory`: it receives no `BackendEnv`, so the selection
step itself can perform no I/O and invoke no backend constructor. -/
theorem selection_pure_and_captures_serialization
    (config : P2pConfig) (env : BackendEnv) (h : NetHandler) :
    selectWorkerFactory config =
      { ctor := ctorOfKind config.backend_kind
        capturedConfig := config.backend_config.to_string } ∧
    ctorOfKind P2pBackendKind.IPC = WorkerCtor.ipc ∧
    ctorOfKind P2pBackendKind.MOCK = WorkerCtor.mock ∧
    (selectWorkerFactory config).invoke env h =
      env (ctorOfKind config.backend_kind) h config.backend_config.to_string := by
  refine ⟨selectWorkerFactory_eq config, rfl, rfl, ?_⟩
  rw [selectWorkerFactory_eq]
  rfl

/-- C2: `P2pNetwork::new` is exactly the connection-thread construction with
its result wrapped: it errors iff the underlying construction errors (with the
same error, returned synchronously to the caller), equivalently iff the
backend's own constructor errors; on success it wraps exactly the constructed
connection.  No error is swallowed or deferred. -/
theorem new_propagates_construction_errors
    (env : BackendEnv) (handler : NetHandler) (config : P2pConfig) :
    P2pNetwork.new env handler config =
      (NetConnectionThread.new env handler (selectWorkerFactory config) none).map
        (fun connection => ({ connection := connection } : P2pNetwork)) ∧
    ∀ e : NetError,
      (P2pNetwork.new env handler config = Except.error e ↔
        env (selectWorkerFactory config).ctor handler
            (selectWorkerFactory config).capturedConfig = Except.error e) := by
  cases henv : env (selectWorkerFactory config).ctor handler
      (selectWorkerFactory config).capturedConfig <;>
    simp [P2pNetwork.new, NetConnectionThread.new, NetWorkerFactory.invoke,
      henv, Except.map]

/-- C3: the backend-kind dispatch in `P2pNetwork::new` is an exhaustive match
over exactly `IPC` and `MOCK`: every inhabitant of `P2pBackendKind` is in the
registered set (so the set of unregistered tags is empty, and the
`UnknownBackendKind` branch of the claim quantifies over an empty set), and
for every tag `new` succeeds exactly when the backend's own construction
succeeds. -/
theorem dispatch_exhaustive_no_unknown_kind
    (env : BackendEnv) (handler : NetHandler) (config : P2pConfig) :
    (∀ k : P2pBackendKind, k ∈ registeredKinds) ∧
    ({ k : P2pBackendKind | k ∉ registeredKinds } = (∅ : Set P2pBackendKind)) ∧
    exceptIsOk (P2pNetwork.new env handler config) =
      exceptIsOk (env (ctorOfKind config.backend_kind) handler
        config.backend_config.to_string) := by
  refine ⟨?_, ?_, ?_⟩
  · intro k; cases k <;> simp [registeredKinds]
  · ext k; cases k <;> simp [registeredKinds]
  · have hsel := selectWorkerFactory_eq config
    cases henv : env (ctorOfKind config.backend_kind) handler
        config.backend_config.to_string <;>
      simp [P2pNetwork.new, NetConnectionThread.new, NetWorkerFactory.invoke,
        hsel, henv, exceptIsOk]

/-- C4: the facade is pure delegation: `send` returns exactly the wrapped
connection's `send` result and state, `stop` returns exactly the wrapped
connection's `stop` result, and `endpoint` returns exactly the wrapped
connection's cached endpoint string. -/
theorem facade_pure_delegation (p : P2pNetwork) (m : Protocol) :
    (p.send m).fst = (p.connection.send m).fst ∧
    (p.send m).snd.connection = (p.connection.send m).snd ∧
    p.stop = (p.connection.stop).fst ∧
    p.endpoint = p.connection.endpoint :=
  ⟨rfl, rfl, rfl, rfl⟩

/-- C5: for every sequence of messages sent through a freshly constructed
facade before `stop`, every `send` succeeds, and after `stop` the bridge has
forwarded exactly those messages to the Backend Worker in enqueue order: the
forwarding trace equals the sent list, and the worker's received record grows
by exactly that list. -/
theorem sends_before_stop_received_in_order
    (env : BackendEnv) (handler : NetHandler) (config : P2pConfig)
    (p : P2pNetwork) (ms : List Protocol)
    (hp : P2pNetwork.new env handler config = Except.ok p) :
    (p.sendAll ms).fst = List.replicate ms.length (Except.ok ()) ∧
    ((p.sendAll ms).snd.connection.stop).snd.forwarded = ms ∧
    ((p.sendAll ms).snd.connection.stop).snd.worker.received =
      p.connection.worker.received ++ ms := by
  obtain ⟨w, henv, hpw⟩ := new_ok_inv env handler config p hp
  subst hpw
  refine ⟨?_, ?_, ?_⟩
  · rw [(facade_sendAll_spec _ ms).1, (sendAll_unstopped _ ms rfl).1]
  · rw [(facade_sendAll_spec _ ms).2, (sendAll_unstopped _ ms rfl).2, stop_snd]
    simp
  · rw [(facade_sendAll_spec _ ms).2, (sendAll_unstopped _ ms rfl).2, stop_snd]
    simp [receiveAll_received]

/-- C5 witness: one concrete message through the sample mock construction. -/
theorem sends_before_stop_received_in_order_witness :
    (sampleFacade.sendAll [Protocol.p2pReady]).fst =
      List.replicate [Protocol.p2pReady].length (Except.ok ()) ∧
    ((sampleFacade.sendAll [Protocol.p2pReady]).snd.connection.stop).snd.forwarded =
      [Protocol.p2pReady] ∧
    ((sampleFacade.sendAll [Protocol.p2pReady]).snd.connection.stop).snd.worker.received =
      sampleFacade.connection.worker.received ++ [Protocol.p2pReady] :=
  sends_before_stop_received_in_order sampleEnv sampleHandler sampleConfig
    sampleFacade [Protocol.p2pReady] (by rfl)

/-- C6: on every connection state, once `stop` has completed any subsequent
`send` fails with `SendAfterStopped` and leaves the stopped state unchanged —
the message is not silently dropped into the queue, and `send` is a total
function (no panic, no hang). -/
theorem send_after_stop_fails (s : NetConnectionThread) (m : Protocol) :
    (((s.stop).snd).send m).fst = Except.error NetError.sendAfterStopped ∧
    (((s.stop).snd).send m).snd = (s.stop).snd := by
  have hstopped : (s.stop).snd.stopped = true := by rw [stop_snd]
  constructor <;> simp [NetConnectionThread.send, hstopped]

/-- C7: for every connection state — whether or not the worker's own `stop`
fails — the first `stop` invocation has a defined result (either success or
the defined `ShutdownFailed` error) and leaves the connection stopped, and a
second invocation on the resulting state is explicitly defined: a no-op
returning the same stopped state with the same defined result.  (At the
facade the question cannot even arise per handle: `P2pNetwork.stop` consumes
the handle by value and returns only the result.) -/
theorem stop_once_then_second_invocation_defined (s : NetConnectionThread) :
    ((s.stop).snd).stopped = true ∧
    ((s.stop).snd).stop = ((s.stop).fst, (s.stop).snd) ∧
    ((s.stop).fst = Except.ok () ∨
      ∃ msg, (s.stop).fst = Except.error (NetError.shutdownFailed msg)) := by
  obtain ⟨h, w, ep, st, q, f⟩ := s
  cases hsf : w.stopFails <;>
    simp [NetConnectionThread.stop, hsf, receiveAll_stopFails, receiveAll_nil]

/-- C8: after a successful construction, `endpoint` returns the endpoint
string cached at construction (the worker's reported endpoint), it is a pure
read of the cached field (`&self`, embedded as a function with no state
output), and any sequence of interleaved `send` calls leaves its value
unchanged. -/
theorem endpoint_cached_and_stable
    (env : BackendEnv) (handler : NetHandler) (config : P2pConfig)
    (w : NetWorker) (p : P2pNetwork) (ms : List Protocol)
    (henv : env (selectWorkerFactory config).ctor handler
        (selectWorkerFactory config).capturedConfig = Except.ok w)
    (hp : P2pNetwork.new env handler config = Except.ok p) :
    p.endpoint = w.endpoint ∧
    p.endpoint = p.connection.endpoint ∧
    ((p.sendAll ms).snd).endpoint = p.endpoint := by
  obtain ⟨w', henv', hpw⟩ := new_ok_inv env handler config p hp
  have hw : w' = w := by
    have := henv'.symm.trans henv
    injection this
  subst hw
  subst hpw
  refine ⟨rfl, rfl, ?_⟩
  simp only [P2pNetwork.endpoint]
  rw [(facade_sendAll_spec _ ms).2, (sendAll_unstopped _ ms rfl).2]

/-- C8 witness: the sample construction with no interleaved sends. -/
theorem endpoint_cached_and_stable_witness :
    sampleFacade.endpoint = sampleWorker.endpoint ∧
    sampleFacade.endpoint = sampleFacade.connection.endpoint ∧
    ((sampleFacade.sendAll []).snd).endpoint = sampleFacade.endpoint :=
  endpoint_cached_and_stable sampleEnv sampleHandler sampleConfig
    sampleWorker sampleFacade [] (by rfl) (by rfl)

/-- C9: the `Debug` formatting of a facade is the constant string
`P2pNetwork {}` for every internal state, so any two facades format
identically and the output reveals nothing about the connection. -/
theorem debug_output_constant (a b : P2pNetwork) :
    P2pNetwork.debugFmt a = P2pNetwork.debugFmt b ∧
    P2pNetwork.debugFmt a = "P2pNetwork \x7b\x7d" :=
  ⟨rfl, rfl⟩

/-- C10: the configuration enters `new` by shared reference — embedded as a
pure function argument, so the caller's value is unchanged — and the same
configuration value drives any number of constructions: mapping `new` (and
the selection step) over `n` copies of the same config yields `n` identical
results, each selecting the factory determined by `backend_kind` with the
same captured serialisation. -/
theorem config_shared_and_reusable
    (env : BackendEnv) (handler : NetHandler) (config : P2pConfig) (n : Nat) :
    (List.replicate n config).map (P2pNetwork.new env handler) =
      List.replicate n (P2pNetwork.new env handler config) ∧
    (List.replicate n config).map selectWorkerFactory =
      List.replicate n
        { ctor := ctorOfKind config.backend_kind
          capturedConfig := config.backend_config.to_string } := by
  constructor
  · rw [List.map_replicate]
  · rw [List.map_replicate, selectWorkerFactory_eq]
